import Mathlib

/-!
Verification of the score-update core of the apexpredictor backend.

The definitions below are a shallow embedding of the Python sources:
  * `get_padded_points`, `calculate_driver_points` (as the per-driver point
    function `driverPoints` plus the key set `allDriverNumbersList`),
    `calculate_bonus_points` and `handler`
    from apex-backend-cdk/services/update_scores.py;
  * `sum_user_prediction_points` and `update_leaderboard_total_points`
    from utils/migrations/recount_points/main.py.
Python dictionaries indexed by composite keys become functions from key
pairs to `Option` values; DynamoDB numbers become `Int`; the Python
`str` of an integer is modelled by `intRepr` below.
-/

/-- One decimal digit as a character, code 48 + d (matches Python digits). -/
def digitChar (d : Nat) : Char := Char.ofNat (48 + d)

/-- Fuel-driven digit peeling; with fuel > n it computes the usual
most-significant-first decimal digit list of n. -/
def natDigitsGo : Nat → Nat → List Char
  | 0, _ => []
  | fuel + 1, n =>
    if n < 10 then [digitChar n]
    else natDigitsGo fuel (n / 10) ++ [digitChar (n % 10)]

/-- Decimal digits of a natural number, most significant first (Python str). -/
def natDigits (n : Nat) : List Char := natDigitsGo (n + 1) n

/-- Python str of a natural number. -/
def natRepr (n : Nat) : String := ⟨natDigits n⟩

/-- Python str of an integer: a minus sign followed by the digits when
negative. -/
def intRepr (n : Int) : String :=
  if n < 0 then "-" ++ natRepr n.natAbs else natRepr n.toNat

/-- Python str.zfill on a character list: left-pad with zeros to width w,
keeping a leading sign in place. -/
def zfillChars (w : Nat) (l : List Char) : List Char :=
  if w ≤ l.length then l
  else
    match l with
    | [] => List.replicate w ('0')
    | c :: rest =>
      if c = ('-') ∨ c = ('+') then c :: (List.replicate (w - l.length) ('0') ++ rest)
      else List.replicate (w - l.length) ('0') ++ (c :: rest)

/-- Python str.zfill. -/
def zfill (w : Nat) (s : String) : String := ⟨zfillChars w s.data⟩

/-- update_scores.get_padded_points: str(1000000 - int(points)).zfill(7).
The Python function performs no range check and never raises on any
integer input; it is total. -/
def get_padded_points (points : Int) : String :=
  zfill 7 (intRepr (1000000 - points))

/-! ## Scoring data model (update_scores.calculate_driver_points inputs) -/

/-- An entry of a prediction's gridOrder/sprintPositions; driverNumber may
be absent (None). -/
structure PredEntry where
  position : Int
  driverNumber : Option Int
deriving DecidableEq

/-- An entry of a result's gridOrder/sprintPositions. -/
structure ResEntry where
  driverNumber : Int
  position : Int
deriving DecidableEq

/-- The additionalPredictions mapping restricted to the three keys the code
reads; a key can be absent. -/
structure AddPreds where
  pole : Option Int
  fastestLap : Option Int
  positionsGained : Option Int
deriving DecidableEq

/-- One user's prediction payload.  A missing sprintPositions key and an
empty list are both falsy in the Python guards, so the empty list models
both. -/
structure Prediction where
  gridOrder : List PredEntry
  sprintPositions : List PredEntry
  additionalPredictions : AddPreds
deriving DecidableEq

/-- The official race result payload (event["result"]). -/
structure RaceResult where
  gridOrder : List ResEntry
  sprintPositions : List ResEntry
  additionalPredictions : AddPreds
deriving DecidableEq

/-- Python truthiness filter on a driver number: None and 0 are falsy. -/
def truthyDriver : Option Int → Option Int
  | some n => if n = 0 then none else some n
  | none => none

/-- The key set of driver_points_map (update_scores.py lines 28-46), as a
duplicate-free list: all result drivers, sprint drivers when the sprint
guards pass, and truthy predicted drivers. -/
def allDriverNumbersList (pred : Prediction) (res : RaceResult) (hasSprint : Bool) : List Int :=
  ((res.gridOrder.map (·.driverNumber))
    ++ (if hasSprint && !res.sprintPositions.isEmpty then
          res.sprintPositions.map (·.driverNumber) else [])
    ++ (pred.gridOrder.filterMap (fun p => truthyDriver p.driverNumber))
    ++ (if hasSprint && !pred.sprintPositions.isEmpty then
          pred.sprintPositions.filterMap (fun p => truthyDriver p.driverNumber) else [])).dedup

/-- The grid diff tiers: correct 10, off by one 5, off by two 2, else 0. -/
def tierPts (diff : Nat) : Nat :=
  if diff = 0 then 10 else if diff = 1 then 5 else if diff = 2 then 2 else 0

/-- Grid-position points accumulated on driver dn (update_scores.py lines
49-69): every predicted entry naming dn whose driver appears in the actual
gridOrder contributes its diff tier. -/
def gridPts (pred : Prediction) (res : RaceResult) (dn : Int) : Nat :=
  (pred.gridOrder.map (fun p =>
    if p.driverNumber = some dn then
      match res.gridOrder.find? (fun r => r.driverNumber == dn) with
      | some a => tierPts (a.position - p.position).natAbs
      | none => 0
    else 0)).sum

/-- Sprint points on driver dn (lines 71-101): same tiers, only when
hasSprint and both sides carry sprint data; a falsy (None or 0) predicted
driver number is skipped. -/
def sprintPts (pred : Prediction) (res : RaceResult) (hasSprint : Bool) (dn : Int) : Nat :=
  if hasSprint && !res.sprintPositions.isEmpty && !pred.sprintPositions.isEmpty then
    (pred.sprintPositions.map (fun p =>
      if truthyDriver p.driverNumber = some dn then
        match res.sprintPositions.find? (fun r => r.driverNumber == dn) with
        | some a => tierPts (a.position - p.position).natAbs
        | none => 0
      else 0)).sum
  else 0

/-- One bonus category's award on driver dn (lines 107-113): 10 when both
values are present, equal, equal to dn, and dn is a key of the points map. -/
def catAward (aVal pVal : Option Int) (keys : List Int) (dn : Int) : Nat :=
  match aVal, pVal with
  | some a, some p => if a = p ∧ a = dn ∧ a ∈ keys then 10 else 0
  | _, _ => 0

/-- The three bonus categories of update_scores.py line 107. -/
inductive BonusCat
  | pole
  | fastestLap
  | positionsGained
deriving DecidableEq

/-- Field selector for a bonus category. -/
def catOf : BonusCat → AddPreds → Option Int
  | .pole, a => a.pole
  | .fastestLap, a => a.fastestLap
  | .positionsGained, a => a.positionsGained

/-- The points a single bonus category contributes to driver dn. -/
def catContribution (c : BonusCat) (pred : Prediction) (res : RaceResult)
    (hasSprint : Bool) (dn : Int) : Nat :=
  catAward (catOf c res.additionalPredictions) (catOf c pred.additionalPredictions)
    (allDriverNumbersList pred res hasSprint) dn

/-- Total points of driver dn in driver_points_map. -/
def driverPoints (pred : Prediction) (res : RaceResult) (hasSprint : Bool) (dn : Int) : Nat :=
  gridPts pred res dn + sprintPts pred res hasSprint dn
    + catContribution .pole pred res hasSprint dn
    + catContribution .fastestLap pred res hasSprint dn
    + catContribution .positionsGained pred res hasSprint dn

/-- sum(d["points"] for d in driver_points_map.values()) of the handler
(line 223-225): the sum of per-driver points over the key set. -/
def calculate_driver_points_total (pred : Prediction) (res : RaceResult) (hasSprint : Bool) : Nat :=
  ((allDriverNumbersList pred res hasSprint).map (driverPoints pred res hasSprint)).sum

/-- update_scores.calculate_bonus_points.is_pos_correct: the driver
predicted at grid position pos exists, is named, appears in the actual
gridOrder, and finished at pos. -/
def isPosCorrect (pred : Prediction) (res : RaceResult) (pos : Int) : Bool :=
  match pred.gridOrder.find? (fun p => p.position == pos) with
  | none => false
  | some p =>
    match p.driverNumber with
    | none => false
    | some dn =>
      match res.gridOrder.find? (fun r => r.driverNumber == dn) with
      | none => false
      | some a => a.position == pos

/-- update_scores.calculate_bonus_points (lines 118-157). -/
def calculate_bonus_points (pred : Prediction) (res : RaceResult) : Nat :=
  let winner := isPosCorrect pred res 1
  let podium := isPosCorrect pred res 1 && isPosCorrect pred res 2 && isPosCorrect pred res 3
  let correctCount :=
    ((List.range 10).filter (fun i : Nat => isPosCorrect pred res ((i : Int) + 1))).length
  (if winner then 10 else 0) + (if podium then 30 else 0)
    + (if 6 ≤ correctCount then 60 else 0) + (if correctCount = 10 then 100 else 0)

/-- total_race_points of the handler (line 223-225). -/
def total_race_points (pred : Prediction) (res : RaceResult) (hasSprint : Bool) : Nat :=
  calculate_driver_points_total pred res hasSprint + calculate_bonus_points pred res

/-! ## The update_scores handler and its store model -/

/-- A scalar event field value (string or number, as DynamoDB/JSON carry). -/
inductive PyVal
  | str (s : String)
  | int (n : Int)
deriving DecidableEq

/-- Python truthiness of a scalar: empty string and 0 are falsy. -/
def truthyPV : PyVal → Bool
  | .str s => !(s == "")
  | .int n => !(n == 0)

/-- The event's result field: an empty dict (falsy) or a payload with keys. -/
inductive ResultVal
  | emptyDict
  | data (r : RaceResult)
deriving DecidableEq

/-- Python str() of a scalar, as used by f-string key interpolation. -/
def pyStr : PyVal → String
  | .str s => s
  | .int n => intRepr n

/-- The Lambda event; each field may be absent. -/
structure Event where
  category : Option PyVal
  race_id : Option PyVal
  season : Option PyVal
  result : Option ResultVal

/-- The race item read at step 1 of the handler; the hasSprint attribute
itself may be absent. -/
structure RaceInfo where
  hasSprint : Option Bool
deriving DecidableEq

/-- A stored RacePrediction item. -/
structure PredItem where
  pk : String
  sk : String
  userId : String
  prediction : Prediction
  points : Option Int
  byLeaderboardSK : Option String
deriving DecidableEq

/-- A stored LeaderboardEntry; every attribute may be absent before the
first write. -/
structure LBEntry where
  totalPoints : Option Int
  numberOfRaces : Option Int
  byLeaderboardSK : Option String
deriving DecidableEq

/-- The slice of the DynamoDB table the handler touches: race items and
leaderboard entries by (PK, SK), prediction items grouped by PK. -/
structure Store where
  races : String × String → Option RaceInfo
  predsByPK : String → List PredItem
  leaderboard : String × String → Option LBEntry

/-- The handler's success payload. -/
structure Output where
  status : String
  processed_count : Nat
  category : String
  race_id : String
  season : String
deriving DecidableEq

/-- The leaderboard section of the handler (update_scores.py lines
241-268): read the entry, add the race points to the stored total, add one
to the stored race count, and write back with a fresh byLeaderboardSK; when
no entry exists, log a warning and write nothing. -/
def updateLeaderboardStep (category season userId : String) (trp : Int) (st : Store) : Store :=
  let lb_pk := "LEADERBOARD#" ++ category ++ "#" ++ season
  let lb_sk := "USER#" ++ userId
  match st.leaderboard (lb_pk, lb_sk) with
  | some e =>
    let newTotal := e.totalPoints.getD 0 + trp
    let newCount := e.numberOfRaces.getD 0 + 1
    let newSK := get_padded_points newTotal ++ "#USER#" ++ userId
    { st with
      leaderboard := fun k =>
        if k = (lb_pk, lb_sk) then some ⟨some newTotal, some newCount, some newSK⟩
        else st.leaderboard k }
  | none => st

/-- The RacePrediction write of the handler (lines 231-239). -/
def updatePredItemWrite (pk sk : String) (trp : Int) (newSK : String) (st : Store) : Store :=
  { st with
    predsByPK := fun p =>
      if p = pk then
        (st.predsByPK pk).map (fun it =>
          if it.sk = sk then { it with points := some trp, byLeaderboardSK := some newSK }
          else it)
      else st.predsByPK p }

/-- The body of the per-prediction loop (lines 211-268). -/
def processPrediction (category season : String) (hasSprint : Bool) (resultData : RaceResult)
    (st : Store) (item : PredItem) : Store :=
  let trp : Int := (total_race_points item.prediction resultData hasSprint : Nat)
  let newPredSK := get_padded_points trp ++ "#USER#" ++ item.userId
  let st1 := updatePredItemWrite item.pk item.sk trp newPredSK st
  updateLeaderboardStep category season item.userId trp st1

/-- The hasSprint flag the handler uses (lines 182-187): the race item's
attribute, defaulting to False when the attribute or the whole item is
absent. -/
def effectiveHasSprint (st : Store) (category season race_id : String) : Bool :=
  match st.races (category ++ "#" ++ season, "RACE#" ++ race_id) with
  | some ri => ri.hasSprint.getD false
  | none => false

/-- The ValueError message of update_scores.py line 172-175. -/
def missingFieldsMsg : String := "Missing required fields: category, race_id, season, or result"

/-- update_scores.handler: validate the event, read hasSprint, load the
race's predictions, score and persist each, and report the processed
count.  The returned store is the input store when validation fails. -/
def handler (ev : Event) (st : Store) : Except String Output × Store :=
  match ev.category, ev.race_id, ev.season, ev.result with
  | some cat, some rid, some sea, some (.data resultData) =>
    if truthyPV cat && truthyPV rid && truthyPV sea then
      let category := pyStr cat
      let race_id := pyStr rid
      let season := pyStr sea
      let hasSprint := effectiveHasSprint st category season race_id
      let prediction_pk := "PREDICTION#" ++ category ++ "#" ++ race_id
      let preds := st.predsByPK prediction_pk
      let stOut := preds.foldl (processPrediction category season hasSprint resultData) st
      (.ok ⟨"SCORES_UPDATED", preds.length, category, race_id, season⟩, stOut)
    else (.error missingFieldsMsg, st)
  | _, _, _, _ => (.error missingFieldsMsg, st)

/-- The handler's validation predicate: all four fields present and truthy
(an empty result dict is falsy). -/
def eventValid (ev : Event) : Bool :=
  match ev.category, ev.race_id, ev.season, ev.result with
  | some cat, some rid, some sea, some (.data _) =>
    truthyPV cat && truthyPV rid && truthyPV sea
  | _, _, _, _ => false

/-! ## The recount_points reconciliation tool -/

/-- A new-schema PREDICTION item as returned by the
apexEntitiesByUser_idAndCreatedAt index (projection ALL). -/
structure PredItemV2 where
  user_id : String
  entityType : String
  season : String
  points : Option Int
deriving DecidableEq

/-- A new-schema item at (PK, SK); byLeaderboardSK stands for any rank-key
attribute the item may carry, which the recount update never sets. -/
structure LBItemV2 where
  entityType : String
  points : Option Int
  races : Option Int
  byLeaderboardSK : Option String
deriving DecidableEq

/-- recount_points.main.sum_user_prediction_points: over the user's items
from the GSI, keep entityType == "PREDICTION" (the FilterExpression has no
season condition although the docstring lists one), sum the optional
points (missing = 0) and count every kept item. -/
def sum_user_prediction_points (items : List PredItemV2) (user_id : String)
    (season : String) : Int × Nat :=
  let _ := season
  let sel := items.filter (fun it => it.user_id == user_id && it.entityType == ("PREDICTION"))
  (sel.foldl (fun acc it => acc + it.points.getD 0) 0, sel.length)

/-- recount_points.main.update_leaderboard_total_points: conditional write
of points and races (and updatedAt) onto the TOTALPOINTS item; the
condition entityType == "LEADERBOARD" failing (including an absent item)
skips the write. -/
def update_leaderboard_total_points (store : String × String → Option LBItemV2)
    (user_id season : String) (total_points : Int) (races_count : Nat) :
    String × String → Option LBItemV2 :=
  let key := ("user#" ++ user_id ++ "#season#" ++ season, "TOTALPOINTS")
  match store key with
  | some it =>
    if it.entityType == ("LEADERBOARD") then
      fun k =>
        if k = key then
          some { it with points := some total_points, races := some (races_count : Int) }
        else store k
    else store
  | none => store

/-- The per-user body of recount_points.main.main: recompute the user's
total from prediction items and write it to the leaderboard item. -/
def recompute (items : List PredItemV2) (store : String × String → Option LBItemV2)
    (user_id season : String) : String × String → Option LBItemV2 :=
  let ts := sum_user_prediction_points items user_id season
  update_leaderboard_total_points store user_id season ts.1 ts.2

/-! ## Concrete fixtures used by counterexamples and witnesses -/

/-- A one-driver prediction: driver 1 forecast to finish first. -/
def predA : Prediction :=
  { gridOrder := [⟨1, some 1⟩], sprintPositions := [], additionalPredictions := ⟨none, none, none⟩ }

/-- A one-driver result: driver 1 finished first. -/
def resA : RaceResult :=
  { gridOrder := [⟨1, 1⟩], sprintPositions := [], additionalPredictions := ⟨none, none, none⟩ }

/-- An event for race r1 of the f1 2026 season carrying resA. -/
def evA : Event :=
  { category := some (.str ("f1")), race_id := some (.str ("r1")),
    season := some (.str ("2026")), result := some (.data resA) }

/-- User u1's stored prediction item for race r1. -/
def itemA : PredItem :=
  { pk := "PREDICTION#f1#r1", sk := "USER#u1", userId := "u1",
    prediction := predA, points := none, byLeaderboardSK := none }

/-- A store with no race item, one prediction for r1, and a zeroed
leaderboard entry for u1. -/
def stA : Store :=
  { races := fun _ => none
  , predsByPK := fun p => if p = "PREDICTION#f1#r1" then [itemA] else []
  , leaderboard := fun k =>
      if k = ("LEADERBOARD#f1#2026", "USER#u1") then some ⟨some 0, some 0, none⟩ else none }

/-- Same as stA but with no leaderboard entry at all. -/
def stB : Store :=
  { races := fun _ => none
  , predsByPK := fun p => if p = "PREDICTION#f1#r1" then [itemA] else []
  , leaderboard := fun _ => none }

/-- A LEADERBOARD item for the recount counterexample: its rank key
"0999950#USER#u1" encodes the stored total of 50 points. -/
def lbStoreC4 : String × String → Option LBItemV2 := fun k =>
  if k = ("user#u1#season#2025", "TOTALPOINTS") then
    some ⟨"LEADERBOARD", some 50, some 1, some ("0999950#USER#u1")⟩
  else none

/-- Prediction fixture with a matched positionsGained value (99) that names
no driver of the race. -/
def predC6 : Prediction :=
  { gridOrder := [⟨1, some 1⟩, ⟨2, some 2⟩], sprintPositions := [],
    additionalPredictions := ⟨none, none, some 99⟩ }

/-- Result fixture matching predC6's positionsGained. -/
def resC6 : RaceResult :=
  { gridOrder := [⟨1, 1⟩, ⟨2, 2⟩], sprintPositions := [],
    additionalPredictions := ⟨none, none, some 99⟩ }

/-- Prediction fixture whose pole value (driver 1) appears in the grids. -/
def predPole : Prediction :=
  { gridOrder := [⟨1, some 1⟩], sprintPositions := [],
    additionalPredictions := ⟨some 1, none, none⟩ }

/-- Result fixture matching predPole's pole value. -/
def resPole : RaceResult :=
  { gridOrder := [⟨1, 1⟩], sprintPositions := [],
    additionalPredictions := ⟨some 1, none, none⟩ }

/-! ## Claim C10 -/

/-- Claim C10: the score-update entry point raises ValueError, before
touching any store state, for every event in which category, race_id,
season or result is absent or falsy (race_id 0, empty season string,
empty result dict included): the handler returns the ValueError and the
store unchanged whenever eventValid is false. -/
theorem update_scores_handler_rejects_invalid (ev : Event) (st : Store)
    (h : eventValid ev = false) :
    handler ev st = (.error missingFieldsMsg, st) := by
  obtain ⟨c, r, s, rv⟩ := ev
  cases c <;> cases r <;> cases s <;> rcases rv with _ | (_ | rr)
  all_goals try rfl
  simp only [eventValid] at h
  simp [handler, h]

/-- Witness for C10 at an event whose race_id is the falsy number 0. -/
theorem update_scores_handler_rejects_invalid_witness :
    eventValid ⟨some (.str ("f1")), some (.int 0), some (.str ("2026")), some (.data resA)⟩ = false
    ∧ handler ⟨some (.str ("f1")), some (.int 0), some (.str ("2026")), some (.data resA)⟩ stA
      = (.error missingFieldsMsg, stA) :=
  ⟨by decide, update_scores_handler_rejects_invalid _ stA (by decide)⟩

/-! ## Claim C1 -/

/-- Claim C1 counterexample: the Leaderboard Updater is not idempotent.
Applying the handler twice with the identical event (same user u1, same
race r1, same 20 points) doubles the entry to 40 points / 2 races instead
of leaving it at 20 / 1. -/
theorem leaderboard_updater_not_idempotent :
    ((handler evA stA).2).leaderboard ("LEADERBOARD#f1#2026", "USER#u1")
      = some ⟨some 20, some 1, some ("0999980#USER#u1")⟩
    ∧ ((handler evA ((handler evA stA).2)).2).leaderboard ("LEADERBOARD#f1#2026", "USER#u1")
      = some ⟨some 40, some 2, some ("0999960#USER#u1")⟩
    ∧ ((handler evA ((handler evA stA).2)).2).leaderboard ("LEADERBOARD#f1#2026", "USER#u1")
      ≠ ((handler evA stA).2).leaderboard ("LEADERBOARD#f1#2026", "USER#u1") := by decide

/-- Claim C1 (amended): the Leaderboard Updater has no idempotency guard;
it never records processed race identifiers, so a second application of
the same (userId, raceId, points) adds the points and the race count
again: after two applications the entry holds the old total plus twice the
points and the old count plus two. -/
theorem leaderboard_updater_double_counts (cat sea uid : String) (p : Int) (st : Store)
    (e : LBEntry)
    (h : st.leaderboard ("LEADERBOARD#" ++ cat ++ "#" ++ sea, "USER#" ++ uid) = some e) :
    (updateLeaderboardStep cat sea uid p (updateLeaderboardStep cat sea uid p st)).leaderboard
        ("LEADERBOARD#" ++ cat ++ "#" ++ sea, "USER#" ++ uid)
      = some ⟨some (e.totalPoints.getD 0 + p + p), some (e.numberOfRaces.getD 0 + 1 + 1),
          some (get_padded_points (e.totalPoints.getD 0 + p + p) ++ "#USER#" ++ uid)⟩ := by
  simp [updateLeaderboardStep, h]

/-- Witness for the amended C1: applying 50 points twice to u1's zeroed
entry leaves 100 points and 2 races. -/
theorem leaderboard_updater_double_counts_witness :
    stA.leaderboard ("LEADERBOARD#" ++ "f1" ++ "#" ++ "2026", "USER#" ++ "u1")
      = some ⟨some 0, some 0, none⟩
    ∧ (updateLeaderboardStep "f1" "2026" "u1" 50
          (updateLeaderboardStep "f1" "2026" "u1" 50 stA)).leaderboard
        ("LEADERBOARD#" ++ "f1" ++ "#" ++ "2026", "USER#" ++ "u1")
      = some ⟨some 100, some 2, some (get_padded_points 100 ++ "#USER#" ++ "u1")⟩ :=
  ⟨rfl, leaderboard_updater_double_counts "f1" "2026" "u1" 50 stA ⟨some 0, some 0, none⟩ rfl⟩

/-! ## Claim C8 -/

/-- Claim C8 counterexample: applying a 20-point race to user u1 who has no
LeaderboardEntry does not create one — the handler returns success but the
entry is still absent afterwards, refuting the claimed creation with
totalPoints = points and racesCounted = 1. -/
theorem first_update_creates_no_entry :
    (handler evA stB).1 = .ok ⟨"SCORES_UPDATED", 1, "f1", "r1", "2026"⟩
    ∧ ((handler evA stB).2).leaderboard ("LEADERBOARD#f1#2026", "USER#u1") = none :=
  ⟨rfl, by decide⟩

/-- Claim C8 (amended): when no LeaderboardEntry exists for (userId,
season), the updater's leaderboard section is a no-op (it logs a warning
and writes nothing; the absence is not an error): the store is returned
unchanged and no entry is created. -/
theorem missing_entry_skips_write (cat sea uid : String) (p : Int) (st : Store)
    (h : st.leaderboard ("LEADERBOARD#" ++ cat ++ "#" ++ sea, "USER#" ++ uid) = none) :
    updateLeaderboardStep cat sea uid p st = st := by
  simp [updateLeaderboardStep, h]

/-- Witness for the amended C8 on the entry-free store stB. -/
theorem missing_entry_skips_write_witness :
    stB.leaderboard ("LEADERBOARD#" ++ "f1" ++ "#" ++ "2026", "USER#" ++ "u1") = none
    ∧ updateLeaderboardStep "f1" "2026" "u1" 50 stB = stB :=
  ⟨rfl, missing_entry_skips_write "f1" "2026" "u1" 50 stB rfl⟩

/-! ## Claim C9 -/

/-- Claim C9 counterexample: the handler does not fail when the race item
(hence hasSprint) is absent from the store — with stA.races empty it still
returns SCORES_UPDATED and persists u1's scored points, refuting "the
whole race batch is fatal and no prediction is scored or persisted". -/
theorem missing_race_result_not_fatal :
    stA.races ("f1#2026", "RACE#r1") = none
    ∧ (handler evA stA).1 = .ok ⟨"SCORES_UPDATED", 1, "f1", "r1", "2026"⟩
    ∧ ((handler evA stA).2).leaderboard ("LEADERBOARD#f1#2026", "USER#u1")
      = some ⟨some 20, some 1, some ("0999980#USER#u1")⟩ :=
  ⟨rfl, rfl, by decide⟩

/-- Claim C9 (amended): the handler never loads the result from the store —
it arrives in the event, and a missing or falsy result aborts with
ValueError before any scoring; a race item absent from the store (unknown
hasSprint) is not fatal: hasSprint defaults to false and the batch
proceeds, returning SCORES_UPDATED over all predictions of the race. -/
theorem missing_race_item_defaults_has_sprint (ev : Event) (st : Store)
    (cat rid sea : PyVal) (r : RaceResult)
    (hc : ev.category = some cat) (hr : ev.race_id = some rid) (hs : ev.season = some sea)
    (hres : ev.result = some (.data r))
    (tc : truthyPV cat = true) (tr : truthyPV rid = true) (ts : truthyPV sea = true)
    (hrace : st.races (pyStr cat ++ "#" ++ pyStr sea, "RACE#" ++ pyStr rid) = none) :
    effectiveHasSprint st (pyStr cat) (pyStr sea) (pyStr rid) = false
    ∧ (handler ev st).1
      = .ok ⟨"SCORES_UPDATED",
          (st.predsByPK ("PREDICTION#" ++ pyStr cat ++ "#" ++ pyStr rid)).length,
          pyStr cat, pyStr rid, pyStr sea⟩ := by
  constructor
  · simp [effectiveHasSprint, hrace]
  · unfold handler
    rw [hc, hr, hs, hres]
    simp [tc, tr, ts]

/-- Witness for the amended C9 on evA and the race-item-free store stA. -/
theorem missing_race_item_defaults_has_sprint_witness :
    stA.races (pyStr (.str ("f1")) ++ "#" ++ pyStr (.str ("2026")),
        "RACE#" ++ pyStr (.str ("r1"))) = none
    ∧ (effectiveHasSprint stA (pyStr (.str ("f1"))) (pyStr (.str ("2026")))
          (pyStr (.str ("r1"))) = false
      ∧ (handler evA stA).1
        = .ok ⟨"SCORES_UPDATED",
            (stA.predsByPK ("PREDICTION#" ++ pyStr (.str ("f1")) ++ "#"
              ++ pyStr (.str ("r1")))).length,
            pyStr (.str ("f1")), pyStr (.str ("r1")), pyStr (.str ("2026"))⟩) :=
  ⟨rfl, missing_race_item_defaults_has_sprint evA stA (.str ("f1")) (.str ("r1"))
    (.str ("2026")) resA rfl rfl rfl rfl rfl rfl rfl rfl⟩

/-! ## Claim C4 -/

/-- Claim C4 counterexample: the Reconciliation Auditor's write violates
the invariant — recomputing u1's total to 80 leaves the stored rank key
"0999950#USER#u1" (the encoding of the old total 50), which differs from
the codec's encoding of 80. -/
theorem rank_key_invariant_violated_by_recount :
    (recompute [⟨"u1", "PREDICTION", "2025", some 80⟩] lbStoreC4 "u1" "2025")
        ("user#u1#season#2025", "TOTALPOINTS")
      = some ⟨"LEADERBOARD", some 80, some 1, some ("0999950#USER#u1")⟩
    ∧ ("0999950#USER#u1" : String) ≠ get_padded_points 80 ++ "#USER#u1" := by decide

/-- Claim C4 (amended): after each Leaderboard Updater write, the entry's
byLeaderboardSK equals the codec encoding of the just-written totalPoints
followed by "#USER#" and the userId, and numberOfRaces counts applications
(one more than before, duplicates included) rather than distinct races;
the recount tool's write never touches any rank-key attribute. -/
theorem leaderboard_write_rank_key_invariant :
    (∀ (cat sea uid : String) (p : Int) (st : Store) (e : LBEntry),
      st.leaderboard ("LEADERBOARD#" ++ cat ++ "#" ++ sea, "USER#" ++ uid) = some e →
      (updateLeaderboardStep cat sea uid p st).leaderboard
          ("LEADERBOARD#" ++ cat ++ "#" ++ sea, "USER#" ++ uid)
        = some ⟨some (e.totalPoints.getD 0 + p), some (e.numberOfRaces.getD 0 + 1),
            some (get_padded_points (e.totalPoints.getD 0 + p) ++ "#USER#" ++ uid)⟩)
    ∧ (∀ (store : String × String → Option LBItemV2) (uid sea : String) (t : Int) (n : Nat)
        (k : String × String),
        ((update_leaderboard_total_points store uid sea t n) k).map LBItemV2.byLeaderboardSK
          = (store k).map LBItemV2.byLeaderboardSK) := by
  constructor
  · intro cat sea uid p st e h
    simp [updateLeaderboardStep, h]
  · intro store uid sea t n k
    unfold update_leaderboard_total_points
    cases hl : store ("user#" ++ uid ++ "#season#" ++ sea, "TOTALPOINTS") with
    | none => rfl
    | some it =>
      by_cases hE : it.entityType == ("LEADERBOARD")
      · simp only [hE, if_true]
        by_cases hk : k = ("user#" ++ uid ++ "#season#" ++ sea, "TOTALPOINTS")
        · subst hk; simp [hl]
        · simp [hk]
      · simp [hE]

/-- Witness for the amended C4: one 20-point application to u1's zeroed
entry writes the encoding of 20 into the rank key, and the recount write
on lbStoreC4 leaves its rank key attribute untouched. -/
theorem leaderboard_write_rank_key_invariant_witness :
    stA.leaderboard ("LEADERBOARD#" ++ "f1" ++ "#" ++ "2026", "USER#" ++ "u1")
      = some ⟨some 0, some 0, none⟩
    ∧ (updateLeaderboardStep "f1" "2026" "u1" 20 stA).leaderboard
        ("LEADERBOARD#" ++ "f1" ++ "#" ++ "2026", "USER#" ++ "u1")
      = some ⟨some 20, some 1, some (get_padded_points 20 ++ "#USER#" ++ "u1")⟩
    ∧ ((update_leaderboard_total_points lbStoreC4 "u1" "2025" 80 1)
          ("user#u1#season#2025", "TOTALPOINTS")).map LBItemV2.byLeaderboardSK
      = (lbStoreC4 ("user#u1#season#2025", "TOTALPOINTS")).map LBItemV2.byLeaderboardSK :=
  ⟨rfl,
    leaderboard_write_rank_key_invariant.1 "f1" "2026" "u1" 20 stA ⟨some 0, some 0, none⟩ rfl,
    leaderboard_write_rank_key_invariant.2 lbStoreC4 "u1" "2025" 80 1 _⟩

/-! ## Claim C3 -/

/-- Claim C3 (code bug): at the failing input — user u1 with a 30-point
prediction from season 2024 and a 50-point prediction from season 2025 —
the recount's sum for season 2025 is 80 over 2 races, not the claimed
per-season 50 over 1: the GSI query's FilterExpression has no season
condition (contradicting the function's own docstring), so totals are
summed across every season. -/
theorem recount_sums_across_seasons :
    sum_user_prediction_points
        [⟨"u1", "PREDICTION", "2024", some 30⟩, ⟨"u1", "PREDICTION", "2025", some 50⟩]
        "u1" "2025"
      = (80, 2) := by decide

/-! ## Claim C6 -/

/-- Claim C6 counterexample: both sides define positionsGained = 99 and the
values are exactly equal, yet no 10 points are awarded — 99 is not a key
of the per-driver map, so the award is silently dropped (the category
contributes 0 and the map total stays at the 20 grid points). -/
theorem bonus_category_match_awards_nothing :
    resC6.additionalPredictions.positionsGained = some 99
    ∧ predC6.additionalPredictions.positionsGained = some 99
    ∧ catContribution .positionsGained predC6 resC6 false 99 = 0
    ∧ driverPoints predC6 resC6 false 99 = 0
    ∧ calculate_driver_points_total predC6 resC6 false = 20 := by decide

/-- Claim C6 (amended): for each of the three categories, when prediction
and result both define the value and the values are exactly equal, 10
points are awarded to the driver identified by the value if and only if
that value is a key of the per-driver points map (a driver number
collected from the grids); otherwise the match awards nothing. -/
theorem bonus_category_award_needs_map_key (c : BonusCat) (pred : Prediction)
    (res : RaceResult) (hs : Bool) (v : Int)
    (ha : catOf c res.additionalPredictions = some v)
    (hp : catOf c pred.additionalPredictions = some v) :
    catContribution c pred res hs v
      = if v ∈ allDriverNumbersList pred res hs then 10 else 0 := by
  simp [catContribution, catAward, ha, hp]

/-- Witness for the amended C6: a matched pole value naming driver 1, who
is in the grids, earns the 10 points. -/
theorem bonus_category_award_needs_map_key_witness :
    catContribution .pole predPole resPole false 1 = 10 :=
  (bonus_category_award_needs_map_key .pole predPole resPole false 1 rfl rfl).trans (by decide)

/-! ## Claim C7 counterexample -/

/-- Claim C7 counterexample: get_padded_points raises no caller error on
out-of-range input — it silently returns the key "-000001" for
points = 1000001 > M and the key "1000005" for points = -5 < 0. -/
theorem rank_key_no_range_check :
    get_padded_points 1000001 = "-000001" ∧ get_padded_points (-5) = "1000005" := by decide

/-- zfill keeps a leading minus sign in front whatever the width. -/
theorem zfillChars_head_minus (w : Nat) (l : List Char) :
    (zfillChars w (('-') :: l)).head? = some ('-') := by
  unfold zfillChars
  split <;> simp

/-- Claim C7 (amended): get_padded_points performs no range validation: it
is a total function returning a string on every integer input, never an
error; in particular every points value above the ceiling M = 1000000
yields a key that begins with the minus sign of the negative difference
(and a negative points value yields the encoding of a total above M, as
the counterexample shows). -/
theorem rank_key_overflow_key_keeps_sign (p : Int) (h : 1000000 < p) :
    (get_padded_points p).data.head? = some ('-') := by
  have hneg : 1000000 - p < 0 := by omega
  unfold get_padded_points zfill intRepr
  rw [if_pos hneg]
  have hdata : (("-" ++ natRepr (1000000 - p).natAbs) : String).data
      = ('-') :: (natRepr (1000000 - p).natAbs).data := by
    rw [String.data_append]
    rfl
  rw [hdata]
  exact zfillChars_head_minus 7 _

/-- Witness for the amended C7 at points = 1000001. -/
theorem rank_key_overflow_key_keeps_sign_witness :
    (1000000 : Int) < 1000001 ∧ (get_padded_points 1000001).data.head? = some ('-') :=
  ⟨by decide, rank_key_overflow_key_keeps_sign 1000001 (by decide)⟩

/-! ## Claim C2: order reversal of the rank key codec

The development below characterises natDigits (the embedded Python decimal
representation) far enough to compare zero-padded keys under the
lexicographic order on character lists. -/

/-- The fuel argument of natDigitsGo is irrelevant once it exceeds n. -/
theorem natDigitsGo_irrel (f1 f2 n : Nat) (h1 : n < f1) (h2 : n < f2) :
    natDigitsGo f1 n = natDigitsGo f2 n := by
  induction f1 generalizing f2 n with
  | zero => omega
  | succ f ih =>
    cases f2 with
    | zero => omega
    | succ g =>
      unfold natDigitsGo
      by_cases h : n < 10
      · simp [h]
      · simp only [h, if_false]
        rw [ih g (n / 10) (by omega) (by omega)]

/-- The recursion equation of natDigits: peel the least significant digit. -/
theorem natDigits_step (n : Nat) :
    natDigits n
      = if n < 10 then [digitChar n] else natDigits (n / 10) ++ [digitChar (n % 10)] := by
  by_cases h : n < 10
  · simp only [h, if_true]
    unfold natDigits natDigitsGo
    simp [h]
  · simp only [h, if_false]
    show natDigitsGo (n + 1) n = natDigitsGo (n / 10 + 1) (n / 10) ++ [digitChar (n % 10)]
    rw [show natDigitsGo (n + 1) n
        = if n < 10 then [digitChar n] else natDigitsGo n (n / 10) ++ [digitChar (n % 10)]
      from rfl]
    simp only [h, if_false]
    rw [natDigitsGo_irrel n (n / 10 + 1) (n / 10) (by omega) (by omega)]

/-- Digit characters are strictly monotone in the digit. -/
theorem digitChar_lt (a b : Nat) (ha : a ≤ 9) (hb : b ≤ 9) (h : a < b) :
    digitChar a < digitChar b := by
  interval_cases a <;> interval_cases b <;> revert h <;> decide

/-- A nonzero digit's character is above the zero character. -/
theorem zero_lt_digitChar (d : Nat) (h1 : 1 ≤ d) (h9 : d ≤ 9) : ('0') < digitChar d := by
  interval_cases d <;> decide

/-- Every character of natDigits is a digit character. -/
theorem natDigits_mem (n : Nat) : ∀ c ∈ natDigits n, ∃ d, d ≤ 9 ∧ c = digitChar d := by
  induction n using Nat.strong_induction_on with
  | _ n ih =>
    rw [natDigits_step n]
    by_cases h : n < 10
    · simp only [h, if_true, List.mem_singleton]
      intro c hc
      exact ⟨n, by omega, hc⟩
    · simp only [h, if_false, List.mem_append, List.mem_singleton]
      intro c hc
      rcases hc with hc | hc
      · exact ih (n / 10) (by omega) c hc
      · exact ⟨n % 10, by omega, hc⟩

/-- natDigits is never empty. -/
theorem natDigits_length_pos (n : Nat) : 0 < (natDigits n).length := by
  rw [natDigits_step n]
  split <;> simp

/-- The digit count is monotone in the number. -/
theorem natDigits_length_mono : ∀ n m, m ≤ n →
    (natDigits m).length ≤ (natDigits n).length := by
  intro n
  induction n using Nat.strong_induction_on with
  | _ n ih =>
    intro m hmn
    by_cases hn : n < 10
    · have hm : m < 10 := by omega
      rw [natDigits_step n, natDigits_step m]
      simp [hn, hm]
    · rw [natDigits_step n]
      simp only [hn, if_false, List.length_append, List.length_singleton]
      by_cases hm : m < 10
      · rw [natDigits_step m]
        simp only [hm, if_true, List.length_singleton]
        have := natDigits_length_pos (n / 10)
        omega
      · rw [natDigits_step m]
        simp only [hm, if_false, List.length_append, List.length_singleton]
        have := ih (n / 10) (by omega) (m / 10) (by omega)
        omega

/-- Numbers below 10 to the w have at most w digits. -/
theorem natDigits_length_le (w : Nat) : ∀ n, n < 10 ^ w → 0 < w →
    (natDigits n).length ≤ w := by
  induction w with
  | zero => omega
  | succ w ih =>
    intro n h _
    rw [natDigits_step n]
    by_cases hn : n < 10
    · simp only [hn, if_true, List.length_singleton]
      omega
    · simp only [hn, if_false, List.length_append, List.length_singleton]
      rcases Nat.eq_zero_or_pos w with hw0 | hw0
      · subst hw0
        simp only [zero_add, pow_one] at h
        omega
      · have hdiv : n / 10 < 10 ^ w := by
          rw [Nat.div_lt_iff_lt_mul (by norm_num)]
          calc n < 10 ^ (w + 1) := h
            _ = 10 ^ w * 10 := by rw [pow_succ]
        have := ih (n / 10) hdiv hw0
        omega

/-- The leading character of a positive number's digits is a nonzero
digit. -/
theorem natDigits_head (n : Nat) (h : 1 ≤ n) :
    ∃ d rest, natDigits n = digitChar d :: rest ∧ 1 ≤ d ∧ d ≤ 9 := by
  induction n using Nat.strong_induction_on with
  | _ n ih =>
    rw [natDigits_step n]
    by_cases hn : n < 10
    · exact ⟨n, [], by simp [hn], h, by omega⟩
    · simp only [hn, if_false]
      obtain ⟨d, rest, heq, h1, h9⟩ := ih (n / 10) (by omega) (by omega)
      exact ⟨d, rest ++ [digitChar (n % 10)], by rw [heq]; rfl, h1, h9⟩

/-- Appending equal-length tails preserves a lexicographic strict prefix
comparison. -/
theorem lex_append_of_lex (l1 : List Char) : ∀ (l2 t1 t2 : List Char),
    l1.length = l2.length → List.Lex (· < ·) l1 l2 →
    List.Lex (· < ·) (l1 ++ t1) (l2 ++ t2) := by
  induction l1 with
  | nil =>
    intro l2 t1 t2 hlen h
    cases l2 with
    | nil => cases h
    | cons b bs => simp at hlen
  | cons a as ih =>
    intro l2 t1 t2 hlen h
    cases l2 with
    | nil => simp at hlen
    | cons b bs =>
      cases h with
      | rel hr => exact List.Lex.rel hr
      | cons htail => exact List.Lex.cons (ih bs t1 t2 (by simpa using hlen) htail)

/-- Lists differing only in a last, strictly larger element compare
lexicographically. -/
theorem lex_append_singleton (l : List Char) (a b : Char) (h : a < b) :
    List.Lex (· < ·) (l ++ [a]) (l ++ [b]) := by
  induction l with
  | nil => exact List.Lex.rel h
  | cons c cs ih => exact List.Lex.cons ih

/-- A common prefix preserves lexicographic comparison. -/
theorem lex_cancel_left (p : List Char) (a b : List Char) (h : List.Lex (· < ·) a b) :
    List.Lex (· < ·) (p ++ a) (p ++ b) := by
  induction p with
  | nil => exact h
  | cons c cs ih => exact List.Lex.cons ih

/-- Equal-length digit strings of distinct numbers compare like the
numbers. -/
theorem natDigits_lex_of_lt : ∀ y x, x < y →
    (natDigits x).length = (natDigits y).length →
    List.Lex (· < ·) (natDigits x) (natDigits y) := by
  intro y
  induction y using Nat.strong_induction_on with
  | _ y ih =>
    intro x hxy hlen
    by_cases hy : y < 10
    · have hx : x < 10 := by omega
      rw [natDigits_step x, natDigits_step y]
      simp only [hx, hy, if_true]
      exact List.Lex.rel (digitChar_lt x y (by omega) (by omega) hxy)
    · by_cases hx : x < 10
      · exfalso
        rw [natDigits_step x, natDigits_step y] at hlen
        simp only [hx, hy, if_true, if_false, List.length_singleton,
          List.length_append] at hlen
        have := natDigits_length_pos (y / 10)
        omega
      · rw [natDigits_step x, natDigits_step y] at hlen ⊢
        simp only [hx, hy, if_false, List.length_append, List.length_singleton] at hlen ⊢
        have hq : x / 10 ≤ y / 10 := Nat.div_le_div_right (le_of_lt hxy)
        rcases lt_or_eq_of_le hq with hq1 | hq2
        · exact lex_append_of_lex _ _ _ _ (by omega)
            (ih (y / 10) (by omega) (x / 10) hq1 (by omega))
        · rw [hq2]
          have hmod : x % 10 < y % 10 := by omega
          exact lex_append_singleton _ _ _ (digitChar_lt _ _ (by omega) (by omega) hmod)

/-- Zero-padding to a common width preserves the digit-string comparison
for any two numbers below 10 to the w. -/
theorem padded_lex_of_lt (w x y : Nat) (hxy : x < y) (hy : y < 10 ^ w) :
    List.Lex (· < ·)
      (List.replicate (w - (natDigits x).length) ('0') ++ natDigits x)
      (List.replicate (w - (natDigits y).length) ('0') ++ natDigits y) := by
  have hw : 0 < w := by
    rcases Nat.eq_zero_or_pos w with h0 | h0
    · subst h0
      simp only [pow_zero] at hy
      omega
    · exact h0
  have hlx := natDigits_length_mono y x (le_of_lt hxy)
  rcases eq_or_lt_of_le hlx with he | hlt
  · rw [he]
    exact lex_cancel_left _ _ _ (natDigits_lex_of_lt y x hxy he)
  · have hylen : (natDigits y).length ≤ w := natDigits_length_le w y hy hw
    have hsplit : w - (natDigits x).length
        = (w - (natDigits y).length) + ((natDigits y).length - (natDigits x).length) := by
      omega
    rw [hsplit, List.replicate_add, List.append_assoc]
    apply lex_cancel_left
    have hy10 : 10 ≤ y := by
      by_contra hcon
      push_neg at hcon
      have h1 : (natDigits y).length = 1 := by rw [natDigits_step y]; simp [hcon]
      have h2 := natDigits_length_pos x
      omega
    obtain ⟨k, hkk⟩ : ∃ k, (natDigits y).length - (natDigits x).length = k + 1 :=
      ⟨(natDigits y).length - (natDigits x).length - 1, by omega⟩
    rw [hkk, List.replicate_succ, List.cons_append]
    obtain ⟨d, rest, heq, hd1, hd9⟩ := natDigits_head y (by omega)
    rw [heq]
    exact List.Lex.rel (zero_lt_digitChar d hd1 hd9)

/-- zfill on a digit string is plain left zero-padding. -/
theorem zfillChars_digits (w n : Nat) (h : (natDigits n).length ≤ w) :
    zfillChars w (natDigits n)
      = List.replicate (w - (natDigits n).length) ('0') ++ natDigits n := by
  unfold zfillChars
  by_cases hw : w ≤ (natDigits n).length
  · have hwe : w = (natDigits n).length := le_antisymm hw h
    simp [hw, hwe]
  · simp only [hw, if_false]
    obtain ⟨c, rest, hc⟩ : ∃ c rest, natDigits n = c :: rest := by
      cases hnd : natDigits n with
      | nil =>
        have := natDigits_length_pos n
        rw [hnd] at this
        simp at this
      | cons c rest => exact ⟨c, rest, rfl⟩
    obtain ⟨d, hd9, hcd⟩ := natDigits_mem n c (by rw [hc]; simp)
    have hne : ¬(c = ('-') ∨ c = ('+')) := by
      subst hcd
      interval_cases d <;> decide
    rw [hc]
    simp only [hne, if_false]

/-- The codec keys compare in reverse numeric order for in-range totals. -/
theorem get_padded_points_lt (a b : Int) (hb : 0 ≤ b) (hab : b < a) (ha : a ≤ 1000000) :
    get_padded_points a < get_padded_points b := by
  have h7 : (10 : Nat) ^ 7 = 10000000 := by norm_num
  have hxy : (1000000 - a).toNat < (1000000 - b).toNat := by omega
  have hy7 : (1000000 - b).toNat < 10 ^ 7 := by omega
  have hx7 : (1000000 - a).toNat < 10 ^ 7 := by omega
  have hlenx := natDigits_length_le 7 (1000000 - a).toNat hx7 (by norm_num)
  have hleny := natDigits_length_le 7 (1000000 - b).toNat hy7 (by norm_num)
  unfold get_padded_points intRepr
  rw [if_neg (by omega : ¬(1000000 - a < 0)), if_neg (by omega : ¬(1000000 - b < 0))]
  rw [String.lt_iff_toList_lt]
  show List.Lex (· < ·)
    (zfillChars 7 (natDigits (1000000 - a).toNat))
    (zfillChars 7 (natDigits (1000000 - b).toNat))
  rw [zfillChars_digits 7 _ hlenx, zfillChars_digits 7 _ hleny]
  exact padded_lex_of_lt 7 _ _ hxy hy7

/-- Claim C2: the Rank Key Codec is order-reversing over the encoded range
0..M with M = 1000000 and width 7: for M ≥ a > b ≥ 0 the key of a is
strictly below the key of b under ordinal string comparison, so ascending
key scans give descending points; encode M = "0000000" is the minimum key
and encode 0 the maximum over the range. -/
theorem rank_key_codec_order_reversing :
    (∀ a b : Int, 0 ≤ b → b < a → a ≤ 1000000 → get_padded_points a < get_padded_points b)
    ∧ get_padded_points 1000000 = "0000000"
    ∧ (∀ p : Int, 0 ≤ p → p ≤ 1000000 → p ≠ 0 → get_padded_points p < get_padded_points 0)
    ∧ (∀ p : Int, 0 ≤ p → p ≤ 1000000 → p ≠ 1000000 →
        get_padded_points 1000000 < get_padded_points p) := by
  refine ⟨get_padded_points_lt, by decide, ?_, ?_⟩
  · intro p h0 hM hne
    exact get_padded_points_lt p 0 le_rfl (by omega) hM
  · intro p h0 hM hne
    exact get_padded_points_lt 1000000 p h0 (by omega) le_rfl

/-- Witness for C2: keys of 5 and 3 compare in reverse order. -/
theorem rank_key_codec_order_reversing_witness :
    (0 : Int) ≤ 3 ∧ (3 : Int) < 5 ∧ (5 : Int) ≤ 1000000
    ∧ get_padded_points 5 < get_padded_points 3 :=
  ⟨by decide, by decide, by decide,
    rank_key_codec_order_reversing.1 5 3 (by decide) (by decide) (by decide)⟩

/-! ## Claim C5: a perfect top-10 prediction scores 300

Scenario: ten distinct drivers d 0 .. d 9; the prediction places d k at
grid position k+1 and the result confirms every position. -/

/-- The perfect prediction grid: driver d j forecast at position j+1. -/
def perfectPredGrid (d : Fin 10 → Int) : List PredEntry :=
  (List.finRange 10).map (fun j => ⟨(j.val : Int) + 1, some (d j)⟩)

/-- The matching result grid: driver d j classified at position j+1. -/
def perfectResGrid (d : Fin 10 → Int) : List ResEntry :=
  (List.finRange 10).map (fun j => ⟨d j, (j.val : Int) + 1⟩)

/-- The perfect prediction payload (no sprint, no bonus categories). -/
def perfectPred (d : Fin 10 → Int) : Prediction :=
  ⟨perfectPredGrid d, [], ⟨none, none, none⟩⟩

/-- The matching result payload. -/
def perfectRes (d : Fin 10 → Int) : RaceResult :=
  ⟨perfectResGrid d, [], ⟨none, none, none⟩⟩

/-- Searching finRange for an index finds that index. -/
theorem finRange_find_self :
    ∀ i : Fin 10, (List.finRange 10).find? (fun j => j == i) = some i := by decide

/-- Summing an indicator that pays 10 at one index over finRange gives 10. -/
theorem finRange_indicator_sum :
    ∀ k : Fin 10,
      ((List.finRange 10).map (fun j => if j = k then (10 : Nat) else 0)).sum = 10 := by decide

/-- The result-grid search for driver d k finds the entry at position
k+1. -/
theorem perfect_res_find (d : Fin 10 → Int) (hinj : Function.Injective d) (k : Fin 10) :
    (perfectResGrid d).find? (fun r => r.driverNumber == d k)
      = some ⟨d k, (k.val : Int) + 1⟩ := by
  unfold perfectResGrid
  rw [List.find?_map]
  have hpred : ((fun r : ResEntry => r.driverNumber == d k)
        ∘ (fun j : Fin 10 => (⟨d j, (j.val : Int) + 1⟩ : ResEntry)))
      = fun j => j == k := by
    funext j
    simp only [Function.comp_apply]
    rw [Bool.eq_iff_iff]
    simp [hinj.eq_iff]
  rw [hpred, finRange_find_self k]
  rfl

/-- The prediction-grid search for position n+1 finds the entry naming
driver d at index n. -/
theorem perfect_pred_find (d : Fin 10 → Int) (n : Nat) (hn : n < 10) :
    (perfectPredGrid d).find? (fun p => p.position == (n : Int) + 1)
      = some ⟨(n : Int) + 1, some (d ⟨n, hn⟩)⟩ := by
  unfold perfectPredGrid
  rw [List.find?_map]
  have hpred : ((fun p : PredEntry => p.position == (n : Int) + 1)
        ∘ (fun j : Fin 10 => (⟨(j.val : Int) + 1, some (d j)⟩ : PredEntry)))
      = fun j => j == (⟨n, hn⟩ : Fin 10) := by
    funext j
    simp only [Function.comp_apply]
    rw [Bool.eq_iff_iff]
    simp only [beq_iff_eq, Fin.ext_iff]
    constructor
    · intro h; omega
    · intro h; omega
  rw [hpred, finRange_find_self]
  rfl

/-- In the perfect scenario every one of the first ten positions is
predicted correctly. -/
theorem perfect_isPosCorrect (d : Fin 10 → Int) (hinj : Function.Injective d)
    (n : Nat) (hn : n < 10) :
    isPosCorrect (perfectPred d) (perfectRes d) ((n : Int) + 1) = true := by
  unfold isPosCorrect
  rw [show (perfectPred d).gridOrder = perfectPredGrid d from rfl,
    show (perfectRes d).gridOrder = perfectResGrid d from rfl]
  simp only [perfect_pred_find d n hn]
  simp only [perfect_res_find d hinj ⟨n, hn⟩]
  simp

/-- The perfect scenario earns all four bonus tiers: 10+30+60+100. -/
theorem perfect_bonus (d : Fin 10 → Int) (hinj : Function.Injective d) :
    calculate_bonus_points (perfectPred d) (perfectRes d) = 200 := by
  have hp := perfect_isPosCorrect d hinj
  have h1 : isPosCorrect (perfectPred d) (perfectRes d) 1 = true := by
    have := hp 0 (by omega); simpa using this
  have h2 : isPosCorrect (perfectPred d) (perfectRes d) 2 = true := by
    have := hp 1 (by omega); simpa using this
  have h3 : isPosCorrect (perfectPred d) (perfectRes d) 3 = true := by
    have := hp 2 (by omega); simpa using this
  have hfilter : (List.range 10).filter
        (fun i : Nat => isPosCorrect (perfectPred d) (perfectRes d) ((i : Int) + 1))
      = List.range 10 := by
    rw [List.filter_eq_self]
    intro a ha
    exact hp a (List.mem_range.mp ha)
  unfold calculate_bonus_points
  simp [h1, h2, h3, hfilter, List.length_range]

/-- Grid scoring gives each scenario driver exactly the 10 exact-hit
points. -/
theorem perfect_gridPts (d : Fin 10 → Int) (hinj : Function.Injective d) (k : Fin 10) :
    gridPts (perfectPred d) (perfectRes d) (d k) = 10 := by
  unfold gridPts
  rw [show (perfectPred d).gridOrder = perfectPredGrid d from rfl]
  unfold perfectPredGrid
  rw [List.map_map]
  refine Eq.trans (congrArg List.sum (List.map_congr_left ?_)) (finRange_indicator_sum k)
  intro j hj
  simp only [Function.comp_apply]
  rw [show (perfectRes d).gridOrder = perfectResGrid d from rfl,
    perfect_res_find d hinj k]
  by_cases hjk : j = k
  · subst hjk
    simp [tierPts]
  · simp [hjk, hinj.ne hjk]

/-- Sprint scoring contributes nothing without a sprint. -/
theorem sprintPts_no_sprint (pred : Prediction) (res : RaceResult) (dn : Int) :
    sprintPts pred res false dn = 0 := by
  simp [sprintPts]

/-- Each scenario driver totals exactly 10 points. -/
theorem perfect_driverPoints (d : Fin 10 → Int) (hinj : Function.Injective d) (k : Fin 10) :
    driverPoints (perfectPred d) (perfectRes d) false (d k) = 10 := by
  unfold driverPoints
  rw [perfect_gridPts d hinj k, sprintPts_no_sprint]
  rfl

/-- The key set of the perfect scenario is exactly the ten drivers. -/
theorem perfect_keys_mem (d : Fin 10 → Int) (x : Int) :
    x ∈ allDriverNumbersList (perfectPred d) (perfectRes d) false ↔ ∃ k, d k = x := by
  rw [allDriverNumbersList, List.mem_dedup]
  rw [show (perfectPred d).gridOrder = perfectPredGrid d from rfl,
    show (perfectRes d).gridOrder = perfectResGrid d from rfl,
    show (perfectPred d).sprintPositions = ([] : List PredEntry) from rfl,
    show (perfectRes d).sprintPositions = ([] : List ResEntry) from rfl]
  unfold perfectPredGrid perfectResGrid
  simp only [Bool.false_and, Bool.and_self, if_neg, Bool.false_eq_true, not_false_iff,
    List.append_nil, List.nil_append, List.mem_append, List.map_map, List.mem_map,
    List.mem_filterMap, List.mem_finRange, true_and, Function.comp_apply]
  constructor
  · rintro (⟨j, hj⟩ | ⟨p, ⟨j, hj⟩, hp⟩)
    · exact ⟨j, hj⟩
    · rw [← hj] at hp
      simp only [truthyDriver] at hp
      by_cases hz : d j = 0
      · rw [if_pos hz] at hp; cases hp
      · rw [if_neg hz] at hp
        exact ⟨j, by injection hp⟩
  · rintro ⟨k, hk⟩
    exact Or.inl ⟨k, hk⟩

/-- The key set of the perfect scenario has exactly ten entries. -/
theorem perfect_keys_length (d : Fin 10 → Int) (hinj : Function.Injective d) :
    (allDriverNumbersList (perfectPred d) (perfectRes d) false).length = 10 := by
  have hnd : (allDriverNumbersList (perfectPred d) (perfectRes d) false).Nodup :=
    List.nodup_dedup _
  have htf : (allDriverNumbersList (perfectPred d) (perfectRes d) false).toFinset
      = Finset.image d Finset.univ := by
    ext x
    simp only [List.mem_toFinset, Finset.mem_image, Finset.mem_univ, true_and]
    exact perfect_keys_mem d x
  have hcard := List.toFinset_card_of_nodup hnd
  rw [htf, Finset.card_image_of_injective _ hinj, Finset.card_univ, Fintype.card_fin] at hcard
  omega

/-- Summing the constant 10 over a list gives ten per element. -/
theorem sum_map_const_ten (l : List Int) : (l.map (fun _ => (10 : Nat))).sum = 10 * l.length := by
  induction l with
  | nil => rfl
  | cons a l ih =>
    simp only [List.map_cons, List.sum_cons, List.length_cons, ih]
    omega

/-- The per-driver map of the perfect scenario totals 100 points. -/
theorem perfect_total (d : Fin 10 → Int) (hinj : Function.Injective d) :
    calculate_driver_points_total (perfectPred d) (perfectRes d) false = 100 := by
  unfold calculate_driver_points_total
  have hmap : (allDriverNumbersList (perfectPred d) (perfectRes d) false).map
        (driverPoints (perfectPred d) (perfectRes d) false)
      = (allDriverNumbersList (perfectPred d) (perfectRes d) false).map (fun _ => (10 : Nat)) := by
    apply List.map_congr_left
    intro x hx
    obtain ⟨k, hk⟩ := (perfect_keys_mem d x).mp hx
    rw [← hk]
    exact perfect_driverPoints d hinj k
  rw [hmap, sum_map_const_ten, perfect_keys_length d hinj]

/-- Claim C5: bonusPoints is the sum of the four independently additive
whole-grid thresholds, so a prediction matching the actual result exactly
on all of positions 1-10 (distinct drivers, no sprint, no bonus
categories) earns bonusPoints = 10+30+60+100 = 200, grid scoring
contributes 10 x 10 = 100, and totalRacePoints = 300. -/
theorem perfect_prediction_scores_300 (d : Fin 10 → Int) (hinj : Function.Injective d) :
    calculate_bonus_points (perfectPred d) (perfectRes d) = 200
    ∧ calculate_driver_points_total (perfectPred d) (perfectRes d) false = 100
    ∧ total_race_points (perfectPred d) (perfectRes d) false = 300 := by
  refine ⟨perfect_bonus d hinj, perfect_total d hinj, ?_⟩
  unfold total_race_points
  rw [perfect_bonus d hinj, perfect_total d hinj]

/-- Witness for C5 with drivers 1..10. -/
theorem perfect_prediction_scores_300_witness :
    Function.Injective (fun i : Fin 10 => (i.val : Int) + 1)
    ∧ (calculate_bonus_points (perfectPred (fun i : Fin 10 => (i.val : Int) + 1))
          (perfectRes (fun i : Fin 10 => (i.val : Int) + 1)) = 200
      ∧ calculate_driver_points_total (perfectPred (fun i : Fin 10 => (i.val : Int) + 1))
          (perfectRes (fun i : Fin 10 => (i.val : Int) + 1)) false = 100
      ∧ total_race_points (perfectPred (fun i : Fin 10 => (i.val : Int) + 1))
          (perfectRes (fun i : Fin 10 => (i.val : Int) + 1)) false = 300) :=
  ⟨by decide, perfect_prediction_scores_300 _ (by decide)⟩

